import Mathlib

/-!
Verification of the AI Text-to-Image API gateway (revisions v2.0.0, v2.3.0,
v2.5.0 of the same Express service) against its design specification.

The embedding models JavaScript wire values (`JsValue`), the JS numeric
coercions used by the handlers (`parseInt`, `parseFloat`, `ToNumber`,
`ToString`), the base64 data-URL encoding of the upstream image bytes, and the
three revisions of the request handlers: plan detection, validation order,
outbound payload construction, upstream error mapping, the batch endpoint and
the admin endpoint.

JS numbers are modelled as exact rationals plus NaN and signed infinity; this
is faithful for every value the handlers manipulate (integers, short decimal
literals) and for the NaN propagation the claims turn on.  Stringification of
nested arrays is cut at depth one (noted locally); no handler path stringifies
a nested array.
-/

namespace TextToImage

/-! ## Definitions -/

/-- A JavaScript number: NaN, a signed infinity, or a finite value modelled as
an exact rational. -/
inductive JsNum where
  | nan : JsNum
  | inf : Bool → JsNum
  | val : Rat → JsNum
  deriving DecidableEq, Repr

/-- A JavaScript wire value as it can appear in a parsed JSON body or in a
header: string, number, undefined, null, boolean, or array. -/
inductive JsValue where
  | str : String → JsValue
  | num : JsNum → JsValue
  | undefined : JsValue
  | null : JsValue
  | bool : Bool → JsValue
  | arr : List JsValue → JsValue

/-- JS whitespace characters recognised when trimming numeric strings. -/
def isJsSpace (c : Char) : Bool :=
  c = ' ' || c = '\t' || c = '\n' || c = '\r' || c = '\x0b' || c = '\x0c'

def dropSpaces (l : List Char) : List Char := l.dropWhile isJsSpace

/-- Trim JS whitespace at both ends. -/
def trimSpaces (l : List Char) : List Char :=
  ((dropSpaces l).reverse.dropWhile isJsSpace).reverse

def isDigitChar (c : Char) : Bool := ('0' ≤ c && c ≤ '9')

def isHexChar (c : Char) : Bool :=
  isDigitChar c || ('a' ≤ c && c ≤ 'f') || ('A' ≤ c && c ≤ 'F')

def digitNat (c : Char) : Nat := c.toNat - 48

def hexNat (c : Char) : Nat :=
  if isDigitChar c then c.toNat - 48
  else if 'a' ≤ c && c ≤ 'f' then c.toNat - 87
  else c.toNat - 55

def natOfDigits (ds : List Char) : Nat :=
  ds.foldl (fun a c => 10 * a + digitNat c) 0

def natOfHexDigits (ds : List Char) : Nat :=
  ds.foldl (fun a c => 16 * a + hexNat c) 0

/-- Read an optional leading sign; returns (isNegative, rest). -/
def readSign : List Char → Bool × List Char
  | '-' :: r => (true, r)
  | '+' :: r => (false, r)
  | l => (false, l)

def signedRat (neg : Bool) (q : Rat) : Rat := if neg then -q else q

/-- JS `parseInt` on a string (radix 10 with the 0x/0X hex prefix): skip
whitespace, optional sign, then the longest digit run; NaN when no digits. -/
def parseIntOfChars (l : List Char) : JsNum :=
  let l1 := dropSpaces l
  let sr := readSign l1
  match sr.2 with
  | '0' :: 'x' :: r =>
      let ds := r.takeWhile isHexChar
      if ds = [] then .nan else .val (signedRat sr.1 (natOfHexDigits ds))
  | '0' :: 'X' :: r =>
      let ds := r.takeWhile isHexChar
      if ds = [] then .nan else .val (signedRat sr.1 (natOfHexDigits ds))
  | l2 =>
      let ds := l2.takeWhile isDigitChar
      if ds = [] then .nan else .val (signedRat sr.1 (natOfDigits ds))

/-- JS `parseFloat` on a string: skip whitespace, optional sign, Infinity or
digits with optional fraction and exponent; NaN when no digits at all. -/
def parseFloatOfChars (l : List Char) : JsNum :=
  let l1 := dropSpaces l
  let sr := readSign l1
  if sr.2.take 8 = "Infinity".data then .inf sr.1
  else
    let ip := sr.2.takeWhile isDigitChar
    let r1 := sr.2.dropWhile isDigitChar
    let fr := match r1 with
      | '.' :: r => (r.takeWhile isDigitChar, r.dropWhile isDigitChar)
      | _ => ([], r1)
    if ip = [] && fr.1 = [] then .nan
    else
      let mant : Rat := (natOfDigits ip : Rat) + (natOfDigits fr.1 : Rat) / ((10 : Rat) ^ fr.1.length)
      let e : Int := match fr.2 with
        | c :: r =>
            if c = 'e' || c = 'E' then
              let es := readSign r
              let eds := es.2.takeWhile isDigitChar
              if eds = [] then 0
              else if es.1 then -(natOfDigits eds : Int) else (natOfDigits eds : Int)
            else 0
        | [] => 0
      .val (signedRat sr.1 mant * (10 : Rat) ^ e)

/-- Exponent part for a full-string numeric literal (`ToNumber`): empty, or
e/E with sign and digits consuming the whole remainder. -/
def expPartFull : List Char → Option Int
  | [] => some 0
  | c :: r =>
      if c = 'e' || c = 'E' then
        let es := readSign r
        let eds := es.2.takeWhile isDigitChar
        if eds = [] then none
        else if es.2.dropWhile isDigitChar ≠ [] then none
        else some (if es.1 then -(natOfDigits eds : Int) else (natOfDigits eds : Int))
      else none

/-- JS `ToNumber` on a string: the whole (trimmed) string must be a numeric
literal; the empty string is 0. -/
def toNumberOfChars (l : List Char) : JsNum :=
  let t := trimSpaces l
  match t with
  | [] => .val 0
  | '0' :: 'x' :: r => if r ≠ [] && r.all isHexChar then .val (natOfHexDigits r) else .nan
  | '0' :: 'X' :: r => if r ≠ [] && r.all isHexChar then .val (natOfHexDigits r) else .nan
  | _ =>
      let sr := readSign t
      if sr.2 = "Infinity".data then .inf sr.1
      else
        let ip := sr.2.takeWhile isDigitChar
        let r1 := sr.2.dropWhile isDigitChar
        let fr := match r1 with
          | '.' :: r => (r.takeWhile isDigitChar, r.dropWhile isDigitChar)
          | _ => ([], r1)
        if ip = [] && fr.1 = [] then .nan
        else
          match expPartFull fr.2 with
          | none => .nan
          | some e =>
              let mant : Rat := (natOfDigits ip : Rat) + (natOfDigits fr.1 : Rat) / ((10 : Rat) ^ fr.1.length)
              .val (signedRat sr.1 mant * (10 : Rat) ^ e)

/-- Exactly `k` decimal digits of `n` (left-padded with zeros), big-endian. -/
def natDecimalDigits : Nat → Nat → List Char
  | _, 0 => []
  | n, k + 1 => natDecimalDigits (n / 10) k ++ [Char.ofNat (48 + n % 10)]

/-- Decimal rendering of a rational whose denominator divides a power of ten
(the case of every JS number the handlers print). -/
def ratDecimalString (q : Rat) : String :=
  if q.den = 1 then toString q.num
  else
    match (List.range 21).find? (fun k => (10 ^ k) % q.den = 0) with
    | some k =>
        let scaled := q.num.natAbs * (10 ^ k / q.den)
        let ipart := toString (scaled / 10 ^ k)
        let fpart := String.mk (natDecimalDigits (scaled % 10 ^ k) k)
        (if q.num < 0 then "-" else "") ++ ipart ++ "." ++ fpart
    | none => toString q.num ++ "/" ++ toString q.den

/-- JS `ToString` of a number. -/
def jsNumToString : JsNum → String
  | .nan => "NaN"
  | .inf true => "-Infinity"
  | .inf false => "Infinity"
  | .val q => ratDecimalString q

/-- Stringification of an array element (JS join semantics: null and undefined
render empty).  Nested arrays are cut to "" here (depth-one model; no handler
path stringifies a nested array). -/
def jsElemString : JsValue → String
  | .str s => s
  | .num n => jsNumToString n
  | .bool b => if b then "true" else "false"
  | .null => ""
  | .undefined => ""
  | .arr _ => ""

/-- JS `ToString`. -/
def jsToString : JsValue → String
  | .null => "null"
  | .undefined => "undefined"
  | .arr l => String.intercalate "," (l.map jsElemString)
  | .str s => s
  | .num n => jsNumToString n
  | .bool b => if b then "true" else "false"

/-- Truncate a rational toward zero (JS parseInt applied to a finite number). -/
def ratTrunc (q : Rat) : Rat := ((Int.tdiv q.num (q.den : Int) : Int) : Rat)

/-- JS `parseInt` applied to an arbitrary value: the argument is stringified
first.  Finite numbers shortcut to truncation (equal to parsing their decimal
rendering for every double below 1e21). -/
def jsParseInt : JsValue → JsNum
  | .str s => parseIntOfChars s.data
  | .num .nan => .nan
  | .num (.inf _) => .nan
  | .num (.val q) => .val (ratTrunc q)
  | .undefined => .nan
  | .null => .nan
  | .bool _ => .nan
  | .arr l => parseIntOfChars (jsToString (.arr l)).data

/-- JS `parseFloat` applied to an arbitrary value. -/
def jsParseFloat : JsValue → JsNum
  | .str s => parseFloatOfChars s.data
  | .num n => n
  | .undefined => .nan
  | .null => .nan
  | .bool _ => .nan
  | .arr l => parseFloatOfChars (jsToString (.arr l)).data

/-- JS `ToNumber`, the coercion used by the `<` and `>` operators when one
side is a number. -/
def jsToNumber : JsValue → JsNum
  | .num n => n
  | .str s => toNumberOfChars s.data
  | .undefined => .nan
  | .null => .val 0
  | .bool b => .val (if b then 1 else 0)
  | .arr l => toNumberOfChars (jsToString (.arr l)).data

/-- `n < k` on JS numbers against a natural bound (false for NaN). -/
def jsNumLtNat (n : JsNum) (k : Nat) : Bool :=
  match n with
  | .nan => false
  | .inf neg => neg
  | .val q => decide (q < (k : Rat))

/-- `n > k` on JS numbers against a natural bound (false for NaN). -/
def jsNumGtNat (n : JsNum) (k : Nat) : Bool :=
  match n with
  | .nan => false
  | .inf neg => !neg
  | .val q => decide ((k : Rat) < q)

/-- JS truthiness. -/
def jsTruthy : JsValue → Bool
  | .str s => !(s == "")
  | .num .nan => false
  | .num (.inf _) => true
  | .num (.val q) => !(q == 0)
  | .bool b => b
  | .null => false
  | .undefined => false
  | .arr _ => true

/-- Truthiness of an optional header or environment string. -/
def optTruthy : Option String → Bool
  | some s => !(s == "")
  | none => false

/-- A destructuring default: applies only to `undefined`, as in JS. -/
def jsOrDefault (v d : JsValue) : JsValue :=
  match v with
  | .undefined => d
  | _ => v

/-- The standard base64 alphabet. -/
def b64Alphabet : List Char :=
  "ABCDEFGHIJKLMNOPQRSTUVWXYZabcdefghijklmnopqrstuvwxyz0123456789+/".data

def b64valToChar (n : Nat) : Char := b64Alphabet.getD n 'A'

def b64indexFrom : List Char → Char → Nat → Option Nat
  | [], _, _ => none
  | a :: r, c, i => if a = c then some i else b64indexFrom r c (i + 1)

def b64charToVal (c : Char) : Option Nat := b64indexFrom b64Alphabet c 0

/-- The four base64 characters of a full three-byte group packed as `n`. -/
def b64chunk3 (n : Nat) : List Char :=
  [b64valToChar (n / 262144), b64valToChar (n / 4096 % 64),
   b64valToChar (n / 64 % 64), b64valToChar (n % 64)]

/-- Base64 encoding of a byte list, with `=` padding. -/
def b64encode : List Nat → List Char
  | [] => []
  | [a] => [b64valToChar (a * 65536 / 262144), b64valToChar (a * 65536 / 4096 % 64), '=', '=']
  | [a, b] => [b64valToChar ((a * 65536 + b * 256) / 262144),
               b64valToChar ((a * 65536 + b * 256) / 4096 % 64),
               b64valToChar ((a * 65536 + b * 256) / 64 % 64), '=']
  | a :: b :: c :: rest => b64chunk3 (a * 65536 + b * 256 + c) ++ b64encode rest

/-- Base64 decoding back to bytes; `none` on malformed input. -/
def b64decode : List Char → Option (List Nat)
  | [] => some []
  | c1 :: c2 :: c3 :: c4 :: rest =>
      (b64charToVal c1).bind fun s0 =>
      (b64charToVal c2).bind fun s1 =>
      if c3 = '=' then
        if c4 = '=' ∧ rest = [] then some [(s0 * 262144 + s1 * 4096) / 65536] else none
      else
        (b64charToVal c3).bind fun s2 =>
        if c4 = '=' then
          if rest = [] then
            some [(s0 * 262144 + s1 * 4096 + s2 * 64) / 65536,
                  (s0 * 262144 + s1 * 4096 + s2 * 64) / 256 % 256]
          else none
        else
          (b64charToVal c4).bind fun s3 =>
          (b64decode rest).map fun tl =>
            (s0 * 262144 + s1 * 4096 + s2 * 64 + s3) / 65536 ::
            (s0 * 262144 + s1 * 4096 + s2 * 64 + s3) / 256 % 256 ::
            (s0 * 262144 + s1 * 4096 + s2 * 64 + s3) % 256 :: tl
  | _ => none

/-- The literal head of the data URLs built by every revision. -/
def dataUrlHead : List Char := "data:image/png;base64,".data

/-- The `image` field of a success envelope: the data URL wrapping the
base64-encoded upstream bytes. -/
def mkDataUrl (bs : List Nat) : String := ⟨dataUrlHead ++ b64encode bs⟩

/-- Decoding a data URL back to the raw bytes. -/
def decodeDataUrl (s : String) : Option (List Nat) :=
  if s.data.take dataUrlHead.length = dataUrlHead then b64decode (s.data.drop dataUrlHead.length)
  else none

/-- ASCII lower-casing, the effect of JS toLowerCase() on the header values
involved (kernel-reducible, unlike String.toLower). -/
def lowerString (s : String) : String := ⟨s.data.map Char.toLower⟩

/-- One entry of the v2.5.0 `PLAN_CONFIG` table. -/
structure PlanCfg where
  key : String
  name : String
  maxResolution : Nat
  price : Rat

/-- The v2.5.0 `PLAN_CONFIG` table. -/
def planConfigs : List PlanCfg :=
  [⟨"basic", "Basic", 512, 0⟩, ⟨"pro", "Pro", 768, 9⟩,
   ⟨"ultra", "Ultra", 1024, 29⟩, ⟨"mega", "Mega", 1024, 89⟩]

def planLookup (k : String) : Option PlanCfg := planConfigs.find? (fun c => c.key == k)

/-- The v2.3.0 `PLAN_RESOLUTIONS` table. -/
def PLAN_RESOLUTIONS : List (String × Nat) :=
  [("basic", 512), ("pro", 768), ("ultra", 1024), ("mega", 1024)]

def planResolutionLookup (k : String) : Option Nat :=
  (PLAN_RESOLUTIONS.find? (fun p => p.1 == k)).map (fun p => p.2)

/-- The `planKey` computed by the v2.5.0 `detectUserPlan` middleware: the
lower-cased x-rapidapi-plan header when truthy, else "basic". -/
def detectUserPlanKey_v25 (planHeader : Option String) : String :=
  match planHeader with
  | some s => if s == "" then "basic" else lowerString s
  | none => "basic"

/-- v2.5.0 `detectUserPlan`: the planKey when it is in `PLAN_CONFIG`, else
basic. -/
def detectUserPlan_v25 (planHeader : Option String) : String :=
  match planLookup (detectUserPlanKey_v25 planHeader) with
  | some _ => detectUserPlanKey_v25 planHeader
  | none => "basic"

/-- The `req.userPlanConfig` record resolved by the v2.5.0 middleware. -/
def resolvedPlanCfg_v25 (planHeader : Option String) : PlanCfg :=
  (planLookup (detectUserPlan_v25 planHeader)).getD ⟨"basic", "Basic", 512, 0⟩

/-- v2.3.0 `detectUserPlan`: recognised x-rapidapi-plan header wins; otherwise
a truthy x-rapidapi-subscription header defaults to pro; otherwise basic.
Returns (userPlan, isPaidUser). -/
def detectUserPlan_v23 (planHeader subHeader : Option String) : String × Bool :=
  if optTruthy planHeader &&
      (planResolutionLookup (lowerString (planHeader.getD ""))).isSome then
    (lowerString (planHeader.getD ""), true)
  else if optTruthy subHeader then ("pro", true)
  else ("basic", false)

/-- The fields of a POST /api/generate JSON body; an absent field is
`undefined`. -/
structure GenBody where
  prompt : JsValue := .undefined
  negative_prompt : JsValue := .undefined
  width : JsValue := .undefined
  height : JsValue := .undefined
  num_inference_steps : JsValue := .undefined
  guidance_scale : JsValue := .undefined
  model : JsValue := .undefined

/-- The `parameters` object of the payload POSTed to the Hugging Face API,
plus the `options` object sent only by v2.0.0. -/
structure Payload where
  inputs : String
  negative_prompt : JsValue
  width : JsNum
  height : JsNum
  num_inference_steps : JsNum
  guidance_scale : JsNum
  use_cache : Option Bool := none
  wait_for_model : Option Bool := none

/-- The one outbound call a generate handler may make: the model routed in
the URL and the JSON payload. -/
structure Outbound where
  model : JsValue
  payload : Payload

/-- What the upstream request yields when it is issued. -/
inductive UpstreamOutcome where
  | ok : List Nat → UpstreamOutcome
  | httpError : Nat → UpstreamOutcome
  | networkError : UpstreamOutcome
  | localError : UpstreamOutcome

/-- The `data` object of a success envelope. -/
structure SuccessData where
  prompt : String
  image : String
  model : JsValue
  dimW : JsValue
  dimH : JsValue
  plan : Option String := none

/-- A client-facing JSON response (the fields the claims are about; fields a
branch does not set are `none`). -/
structure Response where
  status : Nat
  success : Option Bool := none
  error : Option String := none
  message : Option String := none
  data : Option SuccessData := none
  currentPlan : Option String := none
  maxAllowed : Option Nat := none
  requested : Option String := none
  upgrade : Option String := none
  batchId : Option String := none
  results : Option (List JsValue) := none

def promptRequiredResp25 : Response :=
  { status := 400, success := some false, error := some "prompt_required",
    message := some "Text prompt is required and must be a string" }

def promptTooLongResp25 : Response :=
  { status := 400, success := some false, error := some "prompt_too_long",
    message := some "Prompt exceeds maximum length of 1500 characters" }

def invalidDimensionsResp25 : Response :=
  { status := 400, success := some false, error := some "invalid_dimensions",
    message := some "Width and height must be between 64 and 1024 pixels" }

def planLimitResp25 (userPlan : String) (cfg : PlanCfg) (rw rh : JsNum) : Response :=
  { status := 400, success := some false, error := some "plan_limit_exceeded",
    message := some (cfg.name ++ " plan maximum resolution is " ++
      toString cfg.maxResolution ++ "x" ++ toString cfg.maxResolution ++ "."),
    currentPlan := some cfg.name, maxAllowed := some cfg.maxResolution,
    requested := some (jsNumToString rw ++ "x" ++ jsNumToString rh),
    upgrade := some (if userPlan == "basic" then "Upgrade to Pro ($9) for 768x768"
      else if userPlan == "pro" then "Upgrade to Ultra ($29) for 1024x1024"
      else "Contact for custom enterprise plans") }

/-- The requested width of a generate body: the destructuring default of 512
followed by the `parseInt` coercion, exactly as in v2.5.0 and v2.3.0. -/
def requestedW (body : GenBody) : JsNum := jsParseInt (jsOrDefault body.width (.num (.val 512)))

/-- The requested height, symmetric to `requestedW`. -/
def requestedH (body : GenBody) : JsNum := jsParseInt (jsOrDefault body.height (.num (.val 512)))

/-- The outbound call the v2.5.0 handler builds when validation passes. -/
def outbound_v25 (body : GenBody) (s : String) : Outbound :=
  { model := jsOrDefault body.model (.str "stabilityai/stable-diffusion-xl-base-1.0"),
    payload := { inputs := s,
                 negative_prompt := jsOrDefault body.negative_prompt (.str ""),
                 width := requestedW body, height := requestedH body,
                 num_inference_steps :=
                   jsParseInt (jsOrDefault body.num_inference_steps (.num (.val 30))),
                 guidance_scale :=
                   jsParseFloat (jsOrDefault body.guidance_scale (.num (.val 7.5))) } }

/-- The validation phase of the v2.5.0 generate handler, in source order:
prompt presence/type, prompt length, plan resolution limit, then the global
64..1024 dimension bound; `.ok` carries the outbound call it goes on to make. -/
def validate_v25 (planHeader : Option String) (body : GenBody) : Except Response Outbound :=
  match body.prompt with
  | .str s =>
      if s == "" then .error promptRequiredResp25
      else if s.length > 1500 then .error promptTooLongResp25
      else if jsNumGtNat (requestedW body) (resolvedPlanCfg_v25 planHeader).maxResolution ||
          jsNumGtNat (requestedH body) (resolvedPlanCfg_v25 planHeader).maxResolution then
        .error (planLimitResp25 (detectUserPlan_v25 planHeader) (resolvedPlanCfg_v25 planHeader)
          (requestedW body) (requestedH body))
      else if jsNumLtNat (requestedW body) 64 || jsNumLtNat (requestedH body) 64 ||
          jsNumGtNat (requestedW body) 1024 || jsNumGtNat (requestedH body) 1024 then
        .error invalidDimensionsResp25
      else
        .ok (outbound_v25 body s)
  | .num _ => .error promptRequiredResp25
  | .undefined => .error promptRequiredResp25
  | .null => .error promptRequiredResp25
  | .bool _ => .error promptRequiredResp25
  | .arr _ => .error promptRequiredResp25

/-- The response phase of the v2.5.0 handler, applied to the upstream outcome:
success envelope or the catch-block error mapping (401, 402, 429, other HTTP,
network, local). -/
def respond_v25 (planName : String) (ob : Outbound) (up : UpstreamOutcome) : Response :=
  match up with
  | .ok bytes =>
      { status := 200, success := some true,
        data := some { prompt := ob.payload.inputs, image := mkDataUrl bytes,
                       model := ob.model,
                       dimW := .num ob.payload.width, dimH := .num ob.payload.height,
                       plan := some planName } }
  | .httpError st =>
      if st == 401 then
        { status := 401, success := some false, error := some "invalid_api_token",
          message := some "Invalid Hugging Face API token", currentPlan := some planName }
      else if st == 402 then
        { status := 402, success := some false, error := some "payment_required",
          message := some "Hugging Face endpoint requires payment.", currentPlan := some planName }
      else if st == 429 then
        { status := 429, success := some false, error := some "rate_limited",
          message := some "Rate limit reached. Please try again later.",
          currentPlan := some planName }
      else
        { status := 502, success := some false, error := some "generation_failed",
          currentPlan := some planName }
  | .networkError =>
      { status := 504, success := some false, error := some "network_error",
        message := some "Cannot connect to Hugging Face service", currentPlan := some planName }
  | .localError =>
      { status := 500, success := some false, error := some "server_error",
        message := some "Internal server error", currentPlan := some planName }

/-- The whole v2.5.0 POST /api/generate handler.  The first component is the
outbound call actually issued (`none` when validation fails before it), the
second the client response; `up` is what the upstream would answer. -/
def generate_v25 (planHeader : Option String) (body : GenBody) (up : UpstreamOutcome) :
    Option Outbound × Response :=
  match validate_v25 planHeader body with
  | .error r => (none, r)
  | .ok ob => (some ob, respond_v25 (resolvedPlanCfg_v25 planHeader).name ob up)

def promptRequiredResp20 : Response :=
  { status := 400, error := some "prompt_required",
    message := some "Text prompt is required and must be a string" }

def promptTooLongResp20 : Response :=
  { status := 400, error := some "prompt_too_long",
    message := some "Prompt exceeds maximum length of 1500 characters" }

def invalidDimensionsResp20 : Response :=
  { status := 400, error := some "invalid_dimensions",
    message := some "Width and height must be between 64 and 1024 pixels" }

/-- The outbound call the v2.0.0 handler builds when validation passes. -/
def outbound_v20 (body : GenBody) (s : String) : Outbound :=
  { model := jsOrDefault body.model (.str "stabilityai/stable-diffusion-2-1"),
    payload := { inputs := s,
                 negative_prompt := jsOrDefault body.negative_prompt (.str ""),
                 width := jsParseInt (jsOrDefault body.width (.num (.val 512))),
                 height := jsParseInt (jsOrDefault body.height (.num (.val 512))),
                 num_inference_steps :=
                   jsParseInt (jsOrDefault body.num_inference_steps (.num (.val 30))),
                 guidance_scale :=
                   jsParseFloat (jsOrDefault body.guidance_scale (.num (.val 7.5))),
                 use_cache := some true, wait_for_model := some true } }

/-- The v2.0.0 validation phase.  Unlike v2.5.0 it compares the RAW width and
height values (JS `<`/`>` with ToNumber coercion) and only applies `parseInt`
afterwards, when building the payload; there is no plan check. -/
def validate_v20 (body : GenBody) : Except Response Outbound :=
  match body.prompt with
  | .str s =>
      if s == "" then .error promptRequiredResp20
      else if s.length > 1500 then .error promptTooLongResp20
      else if jsNumLtNat (jsToNumber (jsOrDefault body.width (.num (.val 512)))) 64 ||
          jsNumLtNat (jsToNumber (jsOrDefault body.height (.num (.val 512)))) 64 ||
          jsNumGtNat (jsToNumber (jsOrDefault body.width (.num (.val 512)))) 1024 ||
          jsNumGtNat (jsToNumber (jsOrDefault body.height (.num (.val 512)))) 1024 then
        .error invalidDimensionsResp20
      else
        .ok (outbound_v20 body s)
  | .num _ => .error promptRequiredResp20
  | .undefined => .error promptRequiredResp20
  | .null => .error promptRequiredResp20
  | .bool _ => .error promptRequiredResp20
  | .arr _ => .error promptRequiredResp20

/-- The v2.0.0 response phase.  The success envelope echoes the RAW width and
height values; the error mapping is 401/503/429/other/network/local. -/
def respond_v20 (body : GenBody) (ob : Outbound) (up : UpstreamOutcome) : Response :=
  match up with
  | .ok bytes =>
      { status := 200, success := some true,
        data := some { prompt := ob.payload.inputs, image := mkDataUrl bytes,
                       model := ob.model,
                       dimW := jsOrDefault body.width (.num (.val 512)),
                       dimH := jsOrDefault body.height (.num (.val 512)) } }
  | .httpError st =>
      if st == 401 then
        { status := 401, success := some false, error := some "invalid_api_token",
          message := some "Hugging Face token is invalid" }
      else if st == 503 then
        { status := 503, success := some false, error := some "model_loading",
          message := some "Model is still loading, try again in 30 seconds" }
      else if st == 429 then
        { status := 429, success := some false, error := some "rate_limited",
          message := some "Too many requests to Hugging Face" }
      else
        { status := 502, success := some false, error := some "api_error",
          message := some "Hugging Face API error" }
  | .networkError =>
      { status := 504, success := some false, error := some "network_error",
        message := some "Cannot connect to Hugging Face" }
  | .localError =>
      { status := 500, success := some false, error := some "server_error",
        message := some "Internal server error" }

/-- The whole v2.0.0 POST /api/generate handler. -/
def generate_v20 (body : GenBody) (up : UpstreamOutcome) : Option Outbound × Response :=
  match validate_v20 body with
  | .error r => (none, r)
  | .ok ob => (some ob, respond_v20 body ob up)

/-- The v2.0.0 batch handler: validates the prompts array (1..5 items),
acknowledges with a batch id, and issues no upstream call (the first
component of the result is the outbound call made: always `none`). -/
def batchInvalidResp : Response :=
  { status := 400, error := some "invalid_prompts",
    message := some "Prompts must be an array with 1-5 items" }

def batch_v20 (now : Nat) (prompts : JsValue) : Option Outbound × Response :=
  match prompts with
  | .arr l =>
      if l.length = 0 ∨ l.length > 5 then
        (none, batchInvalidResp)
      else
        (none, { status := 200, success := some true,
                 batchId := some ("batch_" ++ toString now),
                 results := some l,
                 message := some "Batch processing started" })
  | .str _ => (none, batchInvalidResp)
  | .num _ => (none, batchInvalidResp)
  | .undefined => (none, batchInvalidResp)
  | .null => (none, batchInvalidResp)
  | .bool _ => (none, batchInvalidResp)

/-- The v2.3.0 batch handler: a stub that ignores the body entirely. -/
def batch_v23 (_prompts : JsValue) : Response :=
  { status := 200, success := some false, error := some "not_implemented",
    message := some "Batch processing not available in current plan. Contact support for enterprise solutions.",
    upgrade := some "Mega plan includes batch processing features" }

def unauthorizedResp : Response :=
  { status := 403, success := some false, error := some "unauthorized" }

/-- The v2.5.0 admin handler: 403 unless ADMIN_KEY is truthy, the admin-key
header is truthy, and they are strictly equal. -/
def adminHealth_v25 (adminKey provided : Option String) : Response :=
  if !optTruthy adminKey || !optTruthy provided || provided != adminKey then unauthorizedResp
  else { status := 200, success := some true, message := some "healthy" }

/-- The v2.3.0 admin handler: 403 only when ADMIN_KEY is truthy and the header
differs; an unset ADMIN_KEY leaves the endpoint open. -/
def adminHealth_v23 (adminKey provided : Option String) : Response :=
  if optTruthy adminKey && provided != adminKey then unauthorizedResp
  else { status := 200, success := some true, message := some "healthy" }

/-- The failing request for claim C1: width "2000abc" in a v2.0.0 body. -/
def c1Body : GenBody := { prompt := .str "a cat", width := .str "2000abc" }

/-- The failing request for claim C2: width "abc" in a v2.5.0 body. -/
def c2Body : GenBody := { prompt := .str "a cat", width := .str "abc" }

/-- The outbound call of the C8/C9/C10 witness bodies (all defaults except the
prompt). -/
def witnessOutbound25 (s : String) : Outbound :=
  { model := .str "stabilityai/stable-diffusion-xl-base-1.0",
    payload := { inputs := s, negative_prompt := .str "",
                 width := .val 512, height := .val 512,
                 num_inference_steps := .val 30, guidance_scale := .val 7.5 } }

def c8ob20 : Outbound :=
  { model := .str "stabilityai/stable-diffusion-2-1",
    payload := { inputs := "p", negative_prompt := .str "",
                 width := .val 512, height := .val 512,
                 num_inference_steps := .val 30, guidance_scale := .val 7.5,
                 use_cache := some true, wait_for_model := some true } }

/-- Witness body for C9: the spec test vector "a red cat" at 512x512. -/
def c9Body : GenBody :=
  { prompt := .str "a red cat", width := .num (.val 512), height := .num (.val 512) }

/-- Witness body for C10: non-numeric steps and guidance values that still
pass validation. -/
def c10Body : GenBody :=
  { prompt := .str "p", num_inference_steps := .str "not a number",
    guidance_scale := .str "n/a" }

/-- The outbound call of the C10 witness: NaN in both forwarded fields. -/
def c10Outbound : Outbound :=
  { model := .str "stabilityai/stable-diffusion-xl-base-1.0",
    payload := { inputs := "p", negative_prompt := .str "",
                 width := .val 512, height := .val 512,
                 num_inference_steps := .nan, guidance_scale := .nan } }

/-- The request that refutes C3 as stated: width 2048 violates both the basic
plan limit (512) and the global bound (1024) at once. -/
def c3Body : GenBody :=
  { prompt := .str "x", width := .num (.val 2048), height := .num (.val 512) }

/-! ## Theorems -/

theorem b64charToVal_b64valToChar : ∀ n, n < 64 → b64charToVal (b64valToChar n) = some n := by
  decide

theorem b64valToChar_ne_pad : ∀ n, n < 64 → b64valToChar n ≠ '=' := by
  decide

/-- Decoding one full four-character group prepends the three recovered bytes. -/
theorem b64decode_chunk (s0 s1 s2 s3 : Nat) (h0 : s0 < 64) (h1 : s1 < 64) (h2 : s2 < 64)
    (h3 : s3 < 64) (rest : List Char) :
    b64decode (b64valToChar s0 :: b64valToChar s1 :: b64valToChar s2 :: b64valToChar s3 :: rest) =
      (b64decode rest).map fun tl =>
        (s0 * 262144 + s1 * 4096 + s2 * 64 + s3) / 65536 ::
        (s0 * 262144 + s1 * 4096 + s2 * 64 + s3) / 256 % 256 ::
        (s0 * 262144 + s1 * 4096 + s2 * 64 + s3) % 256 :: tl := by
  rw [b64decode]
  rw [b64charToVal_b64valToChar _ h0, b64charToVal_b64valToChar _ h1]
  simp only [Option.some_bind]
  rw [if_neg (b64valToChar_ne_pad _ h2), b64charToVal_b64valToChar _ h2]
  simp only [Option.some_bind]
  rw [if_neg (b64valToChar_ne_pad _ h3), b64charToVal_b64valToChar _ h3]
  simp only [Option.some_bind]

/-- Base64 decoding is a left inverse of encoding on byte lists. -/
theorem b64_roundtrip : ∀ L : List Nat, (∀ x ∈ L, x < 256) → b64decode (b64encode L) = some L
  | [], _ => rfl
  | [a], h => by
      have ha : a < 256 := h a (by simp)
      show b64decode [b64valToChar (a * 65536 / 262144), b64valToChar (a * 65536 / 4096 % 64),
        '=', '='] = some [a]
      rw [b64decode]
      rw [b64charToVal_b64valToChar _ (by omega), b64charToVal_b64valToChar _ (by omega)]
      simp only [Option.some_bind]
      simp
      omega
  | [a, b], h => by
      have ha : a < 256 := h a (by simp)
      have hb : b < 256 := h b (by simp)
      show b64decode [b64valToChar ((a * 65536 + b * 256) / 262144),
        b64valToChar ((a * 65536 + b * 256) / 4096 % 64),
        b64valToChar ((a * 65536 + b * 256) / 64 % 64), '='] = some [a, b]
      rw [b64decode]
      rw [b64charToVal_b64valToChar _ (by omega), b64charToVal_b64valToChar _ (by omega)]
      simp only [Option.some_bind]
      rw [if_neg (b64valToChar_ne_pad _ (by omega)), b64charToVal_b64valToChar _ (by omega)]
      simp only [Option.some_bind]
      simp
      omega
  | a :: b :: c :: rest, h => by
      have ha : a < 256 := h a (by simp)
      have hb : b < 256 := h b (by simp)
      have hc : c < 256 := h c (by simp)
      have ih := b64_roundtrip rest (fun x hx => h x (by simp [hx]))
      have henc : b64encode (a :: b :: c :: rest) =
          b64valToChar ((a * 65536 + b * 256 + c) / 262144) ::
          b64valToChar ((a * 65536 + b * 256 + c) / 4096 % 64) ::
          b64valToChar ((a * 65536 + b * 256 + c) / 64 % 64) ::
          b64valToChar ((a * 65536 + b * 256 + c) % 64) :: b64encode rest := by
        rw [b64encode]; rfl
      rw [henc, b64decode_chunk _ _ _ _ (by omega) (by omega) (by omega) (by omega), ih]
      simp only [Option.map_some', Option.some.injEq, List.cons.injEq]
      refine ⟨by omega, by omega, by omega, trivial⟩

/-- Stripping the data-URL head and decoding recovers the original bytes. -/
theorem decodeDataUrl_mkDataUrl (L : List Nat) (hL : ∀ x ∈ L, x < 256) :
    decodeDataUrl (mkDataUrl L) = some L := by
  unfold decodeDataUrl mkDataUrl
  rw [show (String.mk (dataUrlHead ++ b64encode L)).data = dataUrlHead ++ b64encode L from rfl]
  rw [List.take_left, List.drop_left, if_pos rfl]
  exact b64_roundtrip L hL

theorem jsNumGtNat_val_false (q : Rat) (k : Nat) (hq : q ≤ (k : Rat)) :
    jsNumGtNat (.val q) k = false := by
  simp [jsNumGtNat, not_lt.mpr hq]

theorem jsNumGtNat_val_true (q : Rat) (k : Nat) (hq : (k : Rat) < q) :
    jsNumGtNat (.val q) k = true := by
  simp [jsNumGtNat, hq]

theorem jsNumLtNat_val_false (q : Rat) (k : Nat) (hq : (k : Rat) ≤ q) :
    jsNumLtNat (.val q) k = false := by
  simp [jsNumLtNat, not_lt.mpr hq]

theorem jsNumLtNat_val_true (q : Rat) (k : Nat) (hq : q < (k : Rat)) :
    jsNumLtNat (.val q) k = true := by
  simp [jsNumLtNat, hq]

/-- Every plan in the v2.5.0 table caps the edge length at 1024 or below. -/
theorem resolvedPlanCfg_le (ph : Option String) :
    (resolvedPlanCfg_v25 ph).maxResolution ≤ 1024 := by
  unfold resolvedPlanCfg_v25
  cases hf : planLookup (detectUserPlan_v25 ph) with
  | none => simp
  | some c =>
      unfold planLookup at hf
      have hm := List.mem_of_find?_eq_some hf
      simp only [Option.getD_some]
      fin_cases hm <;> decide

/-- Inverting a successful v2.5.0 validation: the prompt was a string and the
outbound call is exactly the one built from the body. -/
theorem validate_v25_ok_inv (ph : Option String) (body : GenBody) (ob : Outbound)
    (h : validate_v25 ph body = .ok ob) :
    body.prompt = .str ob.payload.inputs ∧ ob = outbound_v25 body ob.payload.inputs := by
  unfold validate_v25 at h
  split at h <;> try exact Except.noConfusion h
  rename_i s heq
  split at h
  · exact Except.noConfusion h
  split at h
  · exact Except.noConfusion h
  split at h
  · exact Except.noConfusion h
  split at h
  · exact Except.noConfusion h
  injection h with h5
  subst h5
  exact ⟨heq, rfl⟩

/-- Inverting a successful v2.5.0 validation: both the plan check and the
global dimension check were passed (with NaN passing both vacuously). -/
theorem validate_v25_ok_checks (ph : Option String) (body : GenBody) (ob : Outbound)
    (h : validate_v25 ph body = .ok ob) :
    (jsNumGtNat (requestedW body) (resolvedPlanCfg_v25 ph).maxResolution ||
     jsNumGtNat (requestedH body) (resolvedPlanCfg_v25 ph).maxResolution) = false ∧
    (jsNumLtNat (requestedW body) 64 || jsNumLtNat (requestedH body) 64 ||
     jsNumGtNat (requestedW body) 1024 || jsNumGtNat (requestedH body) 1024) = false := by
  unfold validate_v25 at h
  split at h <;> try exact Except.noConfusion h
  split at h
  · exact Except.noConfusion h
  split at h
  · exact Except.noConfusion h
  split at h
  · exact Except.noConfusion h
  split at h
  · exact Except.noConfusion h
  rename_i h1 h2 h3 h4
  exact ⟨by simpa using h3, by simpa using h4⟩

/-- A generate call that reached upstream decomposes into a successful
validation and the response phase (v2.5.0). -/
theorem generate_v25_call_inv (ph : Option String) (body : GenBody) (up : UpstreamOutcome)
    (ob : Outbound) (resp : Response) (h : generate_v25 ph body up = (some ob, resp)) :
    validate_v25 ph body = .ok ob ∧
    resp = respond_v25 (resolvedPlanCfg_v25 ph).name ob up := by
  unfold generate_v25 at h
  split at h
  · injection h with h1 h2
    exact Option.noConfusion h1
  · rename_i ob2 heq
    injection h with h1 h2
    injection h1 with h1
    subst h1
    exact ⟨heq, h2.symm⟩

/-- A failed v2.5.0 validation is the whole response: no outbound call. -/
theorem generate_v25_of_error (ph : Option String) (body : GenBody) (r : Response)
    (up : UpstreamOutcome) (h : validate_v25 ph body = .error r) :
    generate_v25 ph body up = (none, r) := by
  unfold generate_v25
  rw [h]

/-- A generate call that reached upstream decomposes into a successful
validation and the response phase (v2.0.0). -/
theorem generate_v20_call_inv (body : GenBody) (up : UpstreamOutcome)
    (ob : Outbound) (resp : Response) (h : generate_v20 body up = (some ob, resp)) :
    validate_v20 body = .ok ob ∧ resp = respond_v20 body ob up := by
  unfold generate_v20 at h
  split at h
  · injection h with h1 h2
    exact Option.noConfusion h1
  · rename_i ob2 heq
    injection h with h1 h2
    injection h1 with h1
    subst h1
    exact ⟨heq, h2.symm⟩

/-- A failed v2.0.0 validation is the whole response: no outbound call. -/
theorem generate_v20_of_error (body : GenBody) (r : Response) (up : UpstreamOutcome)
    (h : validate_v20 body = .error r) : generate_v20 body up = (none, r) := by
  unfold generate_v20
  rw [h]

/-- A non-string prompt fails v2.5.0 validation with prompt_required. -/
theorem validate_v25_not_str (ph : Option String) (body : GenBody)
    (h : ∀ s, body.prompt ≠ JsValue.str s) :
    validate_v25 ph body = .error promptRequiredResp25 := by
  unfold validate_v25
  split
  · rename_i s heq
    exact absurd heq (h s)
  all_goals rfl

/-- An empty-string prompt fails v2.5.0 validation with prompt_required. -/
theorem validate_v25_empty_prompt (ph : Option String) (body : GenBody)
    (h : body.prompt = .str "") :
    validate_v25 ph body = .error promptRequiredResp25 := by
  unfold validate_v25
  split
  · rename_i s heq
    rw [h] at heq
    injection heq with e
    subst e
    rfl
  all_goals rfl

/-- An over-long prompt fails v2.5.0 validation with prompt_too_long. -/
theorem validate_v25_long_prompt (ph : Option String) (body : GenBody) (s : String)
    (hp : body.prompt = .str s) (hl : 1500 < s.length) :
    validate_v25 ph body = .error promptTooLongResp25 := by
  unfold validate_v25
  split <;> rename_i heq <;> rw [hp] at heq <;> try exact JsValue.noConfusion heq
  injection heq with e
  subst e
  have hne : ¬ ((s == "") = true) := by
    simp only [beq_iff_eq]
    intro he
    rw [he] at hl
    simp at hl
  rw [if_neg hne, if_pos hl]

/-- A non-string prompt fails v2.0.0 validation with prompt_required. -/
theorem validate_v20_not_str (body : GenBody) (h : ∀ s, body.prompt ≠ JsValue.str s) :
    validate_v20 body = .error promptRequiredResp20 := by
  unfold validate_v20
  split
  · rename_i s heq
    exact absurd heq (h s)
  all_goals rfl

/-- An empty-string prompt fails v2.0.0 validation with prompt_required. -/
theorem validate_v20_empty_prompt (body : GenBody) (h : body.prompt = .str "") :
    validate_v20 body = .error promptRequiredResp20 := by
  unfold validate_v20
  split
  · rename_i s heq
    rw [h] at heq
    injection heq with e
    subst e
    rfl
  all_goals rfl

/-- An over-long prompt fails v2.0.0 validation with prompt_too_long. -/
theorem validate_v20_long_prompt (body : GenBody) (s : String)
    (hp : body.prompt = .str s) (hl : 1500 < s.length) :
    validate_v20 body = .error promptTooLongResp20 := by
  unfold validate_v20
  split <;> rename_i heq <;> rw [hp] at heq <;> try exact JsValue.noConfusion heq
  injection heq with e
  subst e
  have hne : ¬ ((s == "") = true) := by
    simp only [beq_iff_eq]
    intro he
    rw [he] at hl
    simp at hl
  rw [if_neg hne, if_pos hl]

/-- C1: the spec invariant says no request may reach the upstream proxy with a
width outside [64, 1024].  The v2.0.0 handler validates the RAW value (the JS
comparison coerces "2000abc" to NaN, so every bound check is false) and then
forwards parseInt("2000abc") = 2000 in the payload: the outbound call is made
with width 2000 > 1024, violating the invariant. -/
theorem c1_forwarded_width_out_of_bounds :
    ((generate_v20 c1Body (.ok [0])).1.map fun ob => ob.payload.width) = some (.val 2000) ∧
    ¬ ((2000 : Rat) ≤ 1024) := by
  constructor
  · rfl
  · norm_num

/-- C2: the spec says a width failing numeric coercion is rejected with
invalid_dimensions and no outbound call occurs.  In v2.5.0,
parseInt("abc") = NaN passes both the plan check and the dimension check
(every NaN comparison is false), so the handler issues the outbound call with
width NaN and answers 200 with no error. -/
theorem c2_nonnumeric_width_reaches_upstream :
    ((generate_v25 none c2Body (.ok [7])).1.map fun ob => ob.payload.width) = some .nan ∧
    (generate_v25 none c2Body (.ok [7])).2.status = 200 ∧
    (generate_v25 none c2Body (.ok [7])).2.error = none := by
  exact ⟨rfl, rfl, rfl⟩

/-- C7: a missing, non-string, or empty prompt yields prompt_required, a
string prompt longer than 1500 characters yields prompt_too_long, these two
checks run before everything else, and no outbound call is made on either
failure — in both the v2.5.0 and the v2.0.0 handler. -/
theorem c7_prompt_validation (ph : Option String) (body : GenBody) (up : UpstreamOutcome) :
    ((∀ s, body.prompt ≠ .str s) →
       generate_v25 ph body up = (none, promptRequiredResp25) ∧
       generate_v20 body up = (none, promptRequiredResp20)) ∧
    (body.prompt = .str "" →
       generate_v25 ph body up = (none, promptRequiredResp25) ∧
       generate_v20 body up = (none, promptRequiredResp20)) ∧
    (∀ s, body.prompt = .str s → 1500 < s.length →
       generate_v25 ph body up = (none, promptTooLongResp25) ∧
       generate_v20 body up = (none, promptTooLongResp20)) := by
  refine ⟨fun h => ⟨?_, ?_⟩, fun h => ⟨?_, ?_⟩, fun s hp hl => ⟨?_, ?_⟩⟩
  · exact generate_v25_of_error _ _ _ _ (validate_v25_not_str _ _ h)
  · exact generate_v20_of_error _ _ _ (validate_v20_not_str _ h)
  · exact generate_v25_of_error _ _ _ _ (validate_v25_empty_prompt _ _ h)
  · exact generate_v20_of_error _ _ _ (validate_v20_empty_prompt _ h)
  · exact generate_v25_of_error _ _ _ _ (validate_v25_long_prompt _ _ _ hp hl)
  · exact generate_v20_of_error _ _ _ (validate_v20_long_prompt _ _ hp hl)

/-- Witness for C7 at a concrete non-string prompt. -/
theorem c7_witness :
    generate_v25 none { prompt := .num (.val 5) } (.ok []) = (none, promptRequiredResp25) ∧
    generate_v20 { prompt := .num (.val 5) } (.ok []) = (none, promptRequiredResp20) :=
  (c7_prompt_validation none { prompt := .num (.val 5) } (.ok [])).1
    (fun _ h => JsValue.noConfusion h)

/-- C8: whenever the upstream answers HTTP 401, both the v2.5.0 and the
v2.0.0 handler answer HTTP 401 with error kind invalid_api_token, whatever
plan header and bodies were supplied. -/
theorem c8_upstream_401_mapping (ph : Option String) (b1 b2 : GenBody)
    (o1 o2 : Outbound) (r1 r2 : Response)
    (h25 : generate_v25 ph b1 (.httpError 401) = (some o1, r1))
    (h20 : generate_v20 b2 (.httpError 401) = (some o2, r2)) :
    r1.status = 401 ∧ r1.error = some "invalid_api_token" ∧
    r2.status = 401 ∧ r2.error = some "invalid_api_token" := by
  obtain ⟨-, he1⟩ := generate_v25_call_inv ph b1 _ o1 r1 h25
  obtain ⟨-, he2⟩ := generate_v20_call_inv b2 _ o2 r2 h20
  subst he1
  subst he2
  exact ⟨rfl, rfl, rfl, rfl⟩

/-- Witness for C8: a concrete valid request hitting a 401 upstream. -/
theorem c8_witness :
    (generate_v25 none { prompt := .str "p" } (.httpError 401)).2.status = 401 ∧
    (generate_v25 none { prompt := .str "p" } (.httpError 401)).2.error =
      some "invalid_api_token" ∧
    (generate_v20 { prompt := .str "p" } (.httpError 401)).2.status = 401 ∧
    (generate_v20 { prompt := .str "p" } (.httpError 401)).2.error =
      some "invalid_api_token" :=
  c8_upstream_401_mapping none { prompt := .str "p" } { prompt := .str "p" }
    (witnessOutbound25 "p") c8ob20
    ((generate_v25 none { prompt := .str "p" } (.httpError 401)).2)
    ((generate_v20 { prompt := .str "p" } (.httpError 401)).2)
    (by rfl) (by rfl)

/-- C9: on success the v2.5.0 envelope echoes the prompt verbatim, carries the
requested (parsed) width and height, and its image field is the data URL of
the upstream bytes — whose base64 payload decodes back to exactly those
bytes. -/
theorem c9_success_envelope_roundtrip (ph : Option String) (body : GenBody)
    (bytes : List Nat) (s : String) (ob : Outbound) (resp : Response)
    (hbytes : ∀ x ∈ bytes, x < 256)
    (hp : body.prompt = .str s)
    (h : generate_v25 ph body (.ok bytes) = (some ob, resp)) :
    resp.status = 200 ∧
    (resp.data.map fun d => d.prompt) = some s ∧
    (resp.data.map fun d => d.image) = some (mkDataUrl bytes) ∧
    ((resp.data.map fun d => d.image).bind decodeDataUrl) = some bytes ∧
    (resp.data.map fun d => (d.dimW, d.dimH)) =
      some (.num (requestedW body), .num (requestedH body)) := by
  obtain ⟨hv, he⟩ := generate_v25_call_inv ph body _ ob resp h
  obtain ⟨hps, hob⟩ := validate_v25_ok_inv ph body ob hv
  subst he
  have hs : ob.payload.inputs = s := by
    rw [hp] at hps
    injection hps with e
    exact e.symm
  refine ⟨rfl, ?_, rfl, ?_, ?_⟩
  · simp [respond_v25, hs]
  · simp [respond_v25, decodeDataUrl_mkDataUrl bytes hbytes]
  · rw [hob]
    rfl

/-- Witness for C9 with image bytes [88, 1, 2]. -/
theorem c9_witness :
    (generate_v25 none c9Body (.ok [88, 1, 2])).2.status = 200 ∧
    ((generate_v25 none c9Body (.ok [88, 1, 2])).2.data.map fun d => d.prompt) =
      some "a red cat" ∧
    ((generate_v25 none c9Body (.ok [88, 1, 2])).2.data.map fun d => d.image) =
      some (mkDataUrl [88, 1, 2]) ∧
    (((generate_v25 none c9Body (.ok [88, 1, 2])).2.data.map fun d => d.image).bind
      decodeDataUrl) = some [88, 1, 2] ∧
    ((generate_v25 none c9Body (.ok [88, 1, 2])).2.data.map fun d => (d.dimW, d.dimH)) =
      some (.num (requestedW c9Body), .num (requestedH c9Body)) :=
  c9_success_envelope_roundtrip none c9Body [88, 1, 2] "a red cat"
    (witnessOutbound25 "a red cat") ((generate_v25 none c9Body (.ok [88, 1, 2])).2)
    (by decide) rfl (by rfl)

/-- C10: whatever request passes v2.5.0 validation, the payload forwards
num_inference_steps and guidance_scale as the bare parseInt/parseFloat
coercions of the (defaulted) client values — no range or numericity check —
so a non-numeric value is forwarded as NaN. -/
theorem c10_steps_guidance_forwarded_unchecked (ph : Option String) (body : GenBody)
    (up : UpstreamOutcome) (ob : Outbound) (resp : Response)
    (h : generate_v25 ph body up = (some ob, resp)) :
    ob.payload.num_inference_steps =
      jsParseInt (jsOrDefault body.num_inference_steps (.num (.val 30))) ∧
    ob.payload.guidance_scale =
      jsParseFloat (jsOrDefault body.guidance_scale (.num (.val 7.5))) ∧
    jsParseInt (.str "not a number") = .nan ∧
    jsParseFloat (.str "n/a") = .nan := by
  obtain ⟨hv, -⟩ := generate_v25_call_inv ph body up ob resp h
  obtain ⟨-, hob⟩ := validate_v25_ok_inv ph body ob hv
  rw [hob]
  exact ⟨rfl, rfl, rfl, rfl⟩

/-- Witness for C10: the non-numeric request is forwarded with NaN fields. -/
theorem c10_witness :
    c10Outbound.payload.num_inference_steps =
      jsParseInt (jsOrDefault c10Body.num_inference_steps (.num (.val 30))) ∧
    c10Outbound.payload.guidance_scale =
      jsParseFloat (jsOrDefault c10Body.guidance_scale (.num (.val 7.5))) ∧
    jsParseInt (.str "not a number") = .nan ∧
    jsParseFloat (.str "n/a") = .nan :=
  c10_steps_guidance_forwarded_unchecked none c10Body (.ok []) c10Outbound
    ((generate_v25 none c10Body (.ok [])).2) (by rfl)

/-- Counterexample to C3: when both the global dimension bound and the plan
limit are violated simultaneously, v2.5.0 answers plan_limit_exceeded, not
invalid_dimensions — the plan check runs first. -/
theorem c3_plan_check_fires_first_cex :
    (generate_v25 (some "basic") c3Body (.ok [])).2.error = some "plan_limit_exceeded" ∧
    (generate_v25 (some "basic") c3Body (.ok [])).2.error ≠ some "invalid_dimensions" ∧
    ¬ ((2048 : Rat) ≤ 1024) := by
  refine ⟨rfl, by decide, by norm_num⟩

/-- C3 as amended: for a well-formed request whose parsed width or height is a
number outside [64, 1024], the v2.5.0 handler answers invalid_dimensions when
the dimensions are within the plan limit, but the plan-limit check takes
priority (plan_limit_exceeded) when the plan limit is exceeded too; in both
cases no outbound call is made. -/
theorem c3_dimension_check_amended (ph : Option String) (body : GenBody) (s : String)
    (w h : Rat)
    (hp : body.prompt = .str s) (hs : s ≠ "") (hl : s.length ≤ 1500)
    (hw : requestedW body = .val w) (hh : requestedH body = .val h)
    (hout : w < 64 ∨ h < 64 ∨ 1024 < w ∨ 1024 < h) :
    (w ≤ ((resolvedPlanCfg_v25 ph).maxResolution : Rat) →
     h ≤ ((resolvedPlanCfg_v25 ph).maxResolution : Rat) →
     ∀ up, generate_v25 ph body up = (none, invalidDimensionsResp25)) ∧
    ((((resolvedPlanCfg_v25 ph).maxResolution : Rat) < w ∨
      ((resolvedPlanCfg_v25 ph).maxResolution : Rat) < h) →
     ∀ up, (generate_v25 ph body up).1 = none ∧
       (generate_v25 ph body up).2.error = some "plan_limit_exceeded") := by
  have hbne : ¬ ((s == "") = true) := by
    simp only [beq_iff_eq]
    exact hs
  have hlne : ¬ (s.length > 1500) := by omega
  constructor
  · intro hwle hhle up
    have hM1024 : ((resolvedPlanCfg_v25 ph).maxResolution : Rat) ≤ 1024 := by
      exact_mod_cast Nat.cast_le.mpr (resolvedPlanCfg_le ph)
    have hv : validate_v25 ph body = .error invalidDimensionsResp25 := by
      unfold validate_v25
      split <;> rename_i heq <;> rw [hp] at heq <;> try exact JsValue.noConfusion heq
      injection heq with e
      subst e
      rw [if_neg hbne, if_neg hlne, hw, hh]
      rw [jsNumGtNat_val_false _ _ hwle, jsNumGtNat_val_false _ _ hhle]
      have hdim : (jsNumLtNat (JsNum.val w) 64 || jsNumLtNat (JsNum.val h) 64 ||
          jsNumGtNat (JsNum.val w) 1024 || jsNumGtNat (JsNum.val h) 1024) = true := by
        rcases hout with ho | ho | ho | ho
        · rw [jsNumLtNat_val_true _ _ ho]; simp
        · rw [jsNumLtNat_val_true _ _ ho]; simp
        · exact absurd (lt_of_le_of_lt (hwle.trans hM1024) ho) (lt_irrefl _)
        · exact absurd (lt_of_le_of_lt (hhle.trans hM1024) ho) (lt_irrefl _)
      rw [Bool.false_or, if_neg (by decide), if_pos hdim]
    exact generate_v25_of_error _ _ _ _ hv
  · intro hplan up
    have hcond : (jsNumGtNat (requestedW body) (resolvedPlanCfg_v25 ph).maxResolution ||
        jsNumGtNat (requestedH body) (resolvedPlanCfg_v25 ph).maxResolution) = true := by
      rw [hw, hh]
      rcases hplan with ho | ho
      · rw [jsNumGtNat_val_true _ _ ho]; simp
      · rw [jsNumGtNat_val_true _ _ ho]; simp
    have hv : validate_v25 ph body = .error (planLimitResp25 (detectUserPlan_v25 ph)
        (resolvedPlanCfg_v25 ph) (requestedW body) (requestedH body)) := by
      unfold validate_v25
      split <;> rename_i heq <;> rw [hp] at heq <;> try exact JsValue.noConfusion heq
      injection heq with e
      subst e
      rw [if_neg hbne, if_neg hlne, if_pos hcond]
    rw [generate_v25_of_error _ _ _ up hv]
    exact ⟨rfl, rfl⟩

/-- Witness for the amended C3: width 32 on the basic plan gives
invalid_dimensions. -/
theorem c3_amended_witness :
    generate_v25 none { prompt := .str "w", width := .num (.val 32) } (.ok []) =
      (none, invalidDimensionsResp25) :=
  (c3_dimension_check_amended none { prompt := .str "w", width := .num (.val 32) }
      "w" 32 512 rfl (by decide) (by decide) (by decide) (by decide)
      (Or.inl (by norm_num))).1
    (by decide) (by decide) (.ok [])

/-- Counterexample to C4: v2.3.0 with no ADMIN_KEY configured answers 200
healthy to a request with no admin-key header at all. -/
theorem c4_v23_admin_open_cex :
    (adminHealth_v23 none none).status = 200 ∧
    (adminHealth_v23 none none).error = none ∧
    (adminHealth_v23 none none).status ≠ 403 := by
  refine ⟨rfl, rfl, by decide⟩

/-- C4 as amended: the v2.5.0 handler succeeds exactly when the admin secret
is configured (truthy), the header is present (truthy), and they match — so an
absent secret always yields 403 there; the v2.3.0 handler instead succeeds
whenever the secret is not truthy or the header equals it, so an unset secret
leaves it open. -/
theorem c4_admin_auth_amended (adminKey provided : Option String) :
    ((adminHealth_v25 adminKey provided).status ≠ 403 ↔
      (optTruthy adminKey = true ∧ optTruthy provided = true ∧ provided = adminKey)) ∧
    ((adminHealth_v23 adminKey provided).status ≠ 403 ↔
      (optTruthy adminKey = false ∨ provided = adminKey)) ∧
    (adminHealth_v25 none provided).status = 403 := by
  refine ⟨?_, ?_, rfl⟩
  · unfold adminHealth_v25 unauthorizedResp
    cases hak : optTruthy adminKey <;> cases hpv : optTruthy provided <;>
      by_cases h3 : provided = adminKey <;>
      simp [hak, hpv, h3, bne_iff_ne]
  · unfold adminHealth_v23 unauthorizedResp
    cases hak : optTruthy adminKey <;> by_cases h3 : provided = adminKey <;>
      simp [hak, h3, bne_iff_ne]

/-- Counterexample to C5: in v2.3.0, an absent plan hint with a subscription
header present resolves to pro, not to the default basic. -/
theorem c5_subscription_defaults_to_pro_cex :
    (detectUserPlan_v23 none (some "active")).1 = "pro" ∧
    (detectUserPlan_v23 none (some "active")).1 ≠ "basic" := by
  refine ⟨rfl, by decide⟩

/-- C5 as amended: the v2.5.0 resolver matches the plan hint case-insensitively
against the known plan table, degrades every absent or unrecognised hint to
basic, and never fails; the v2.3.0 resolver also never fails and matches
case-insensitively, but degrades an absent or unrecognised hint to pro — not
basic — whenever a subscription header is present. -/
theorem c5_plan_resolution_amended :
    (∀ s : String, (planLookup (lowerString s)).isSome = true →
      detectUserPlan_v25 (some s) = lowerString s) ∧
    (∀ s : String, (planLookup (lowerString s)).isSome = false →
      detectUserPlan_v25 (some s) = "basic") ∧
    detectUserPlan_v25 none = "basic" ∧
    (∀ p q : Option String, (detectUserPlan_v23 p q).1 = "basic" ∨
      (detectUserPlan_v23 p q).1 = "pro" ∨ (detectUserPlan_v23 p q).1 = "ultra" ∨
      (detectUserPlan_v23 p q).1 = "mega") ∧
    (∀ q, optTruthy q = true → (detectUserPlan_v23 none q).1 = "pro") := by
  refine ⟨?_, ?_, rfl, ?_, ?_⟩
  · intro s hsome
    by_cases hse : s = ""
    · subst hse
      exact absurd hsome (by decide)
    · have hkey : detectUserPlanKey_v25 (some s) = lowerString s := by
        simp [detectUserPlanKey_v25, hse]
      unfold detectUserPlan_v25
      rw [hkey]
      obtain ⟨c, hc⟩ := Option.isSome_iff_exists.mp hsome
      rw [hc]
  · intro s hnone
    by_cases hse : s = ""
    · subst hse
      rfl
    · have hkey : detectUserPlanKey_v25 (some s) = lowerString s := by
        simp [detectUserPlanKey_v25, hse]
      unfold detectUserPlan_v25
      rw [hkey]
      cases hc : planLookup (lowerString s) with
      | none => rfl
      | some c => rw [hc] at hnone; cases hnone
  · intro p q
    unfold detectUserPlan_v23
    split
    · rename_i hc
      have hsome := (Bool.and_eq_true _ _).mp hc |>.2
      have hkeys : lowerString (p.getD "") = "basic" ∨ lowerString (p.getD "") = "pro" ∨
          lowerString (p.getD "") = "ultra" ∨ lowerString (p.getD "") = "mega" := by
        set k := lowerString (p.getD "") with hk
        by_cases h1 : k = "basic"
        · exact Or.inl h1
        by_cases h2 : k = "pro"
        · exact Or.inr (Or.inl h2)
        by_cases h3 : k = "ultra"
        · exact Or.inr (Or.inr (Or.inl h3))
        by_cases h4 : k = "mega"
        · exact Or.inr (Or.inr (Or.inr h4))
        exfalso
        have e1 : ("basic" == k) = false := beq_eq_false_iff_ne.mpr (fun he => h1 he.symm)
        have e2 : ("pro" == k) = false := beq_eq_false_iff_ne.mpr (fun he => h2 he.symm)
        have e3 : ("ultra" == k) = false := beq_eq_false_iff_ne.mpr (fun he => h3 he.symm)
        have e4 : ("mega" == k) = false := beq_eq_false_iff_ne.mpr (fun he => h4 he.symm)
        simp [planResolutionLookup, PLAN_RESOLUTIONS, List.find?, e1, e2, e3, e4] at hsome
      exact hkeys
    · split
      · exact Or.inr (Or.inl rfl)
      · exact Or.inl rfl
  · intro q hq
    unfold detectUserPlan_v23
    rw [if_neg (by simp [optTruthy]), if_pos hq]

/-- Witness for the amended C5 at concrete headers. -/
theorem c5_amended_witness :
    detectUserPlan_v25 (some "PRO") = lowerString "PRO" ∧
    (detectUserPlan_v23 none (some "sub")).1 = "pro" :=
  ⟨c5_plan_resolution_amended.1 "PRO" (by decide),
   c5_plan_resolution_amended.2.2.2.2 (some "sub") (by decide)⟩

/-- Counterexample to C6: the v2.3.0 batch endpoint rejects a perfectly valid
two-prompt array with not_implemented and returns no batch id. -/
theorem c6_v23_batch_not_implemented_cex :
    (batch_v23 (.arr [.str "a", .str "b"])).error = some "not_implemented" ∧
    (batch_v23 (.arr [.str "a", .str "b"])).batchId = none ∧
    (batch_v23 (.arr [.str "a", .str "b"])).success = some false := by
  exact ⟨rfl, rfl, rfl⟩

/-- C6 as amended: the v2.0.0 batch endpoint acknowledges an array of 1..5
prompts with a batch id, rejects empty, oversized or non-array bodies with
invalid_prompts, and never issues an outbound call; the v2.3.0 revision
instead answers not_implemented (with no batch id) to every batch request, and
makes no outbound call either. -/
theorem c6_batch_amended (now : Nat) (pv : JsValue) :
    (∀ l : List JsValue, pv = .arr l → 1 ≤ l.length → l.length ≤ 5 →
      (batch_v20 now pv).1 = none ∧
      (batch_v20 now pv).2.batchId = some ("batch_" ++ toString now) ∧
      (batch_v20 now pv).2.error = none) ∧
    (∀ l : List JsValue, pv = .arr l → (l.length = 0 ∨ 5 < l.length) →
      (batch_v20 now pv).2.error = some "invalid_prompts" ∧ (batch_v20 now pv).1 = none) ∧
    ((∀ l, pv ≠ .arr l) → (batch_v20 now pv).2.error = some "invalid_prompts" ∧
      (batch_v20 now pv).1 = none) ∧
    ((batch_v23 pv).error = some "not_implemented" ∧ (batch_v23 pv).batchId = none) := by
  refine ⟨?_, ?_, ?_, rfl, rfl⟩
  · intro l hl h1 h5
    subst hl
    simp only [batch_v20]
    rw [if_neg (by omega)]
    exact ⟨rfl, rfl, rfl⟩
  · intro l hl hbad
    subst hl
    simp only [batch_v20]
    rw [if_pos (by omega)]
    exact ⟨rfl, rfl⟩
  · intro hnot
    cases hpv : pv <;> try exact ⟨rfl, rfl⟩
    exact absurd hpv (hnot _)

/-- Witness for the amended C6: one prompt is acknowledged with a batch id. -/
theorem c6_amended_witness :
    (batch_v20 7 (.arr [.str "a"])).2.batchId = some ("batch_" ++ toString 7) ∧
    (batch_v20 7 (.arr [.str "a"])).1 = none := by
  have h := (c6_batch_amended 7 (.arr [.str "a"])).1 [.str "a"] rfl (by decide) (by decide)
  exact ⟨h.2.1, h.1⟩

end TextToImage
